import Mathlib

/-!
Shallow embedding of `src/main.py` (retirement-estimator).

Conventions of the embedding:
* Calendar dates are represented by their Python `date.toordinal()` value
  (days since 0001-01-00), an integer.  `timedelta` arithmetic on whole
  days is integer addition.
* Integer-typed CLI arguments (`type=int`) are `ℤ`; float-typed arguments
  (`type=float`) are modelled exactly as `ℚ`.
* The sympy expressions `worth_work`, `worth_ret`, `worth_by_age` are real
  valued functions of the symbol `age`; `exp` is `Real.exp`.
* sympy's `ln` on a real argument is complex valued when the argument is
  negative (`log(-x) = log x + I*pi`), so `age_by_worth` is modelled as a
  `ℂ`-valued function via `Complex.log`.  No exception of any kind is
  raised by `ln` on a negative argument.
* Python's `int()` conversion truncates toward zero; it is `pyInt` below.
* Python's `ZeroDivisionError` (raised when an int is divided by the float
  `0.0`, e.g. in line 61 when `working_inv_return == 0`) is modelled by
  `pyDiv` returning `Except.error PyError.zeroDivisionError`.
-/

namespace RetirementEstimator

/-- The parsed command-line arguments as bound in lines 26-37 of
`src/main.py`.  `birthdate` and `net_worth_date` are already resolved to
day ordinals (argparse delivers strings; `datetime.strptime` parsing and
the `date.today()` default of line 42 happen before the model runs).
`target_date` / `target_worth` are `none` when the option was omitted
(argparse default `None`). -/
structure Args where
  birthdate : ℤ
  net_worth : ℤ
  net_worth_date : ℤ
  working_salary : ℤ
  working_investment_return : ℚ
  working_spending : ℤ
  retirement_age : ℤ
  retired_salary : ℤ
  retired_investment_return : ℚ
  retired_spending : ℤ
  target_date : Option ℤ
  target_worth : Option ℤ

/-- Line 41: `worth_0 = args.net_worth`. -/
def worth_0 (a : Args) : ℤ := a.net_worth

/-- Line 47 of `src/main.py`, exactly as written there:
`retired_salary = args.retirement_age`.  (Note: the right-hand side is
`args.retirement_age`, not `args.retired_salary`.) -/
def retired_salary (a : Args) : ℤ := a.retirement_age

/-- Line 51: `age_0 = (date_0 - birthdate) / timedelta(days = 365.25)`;
`365.25 = 1461/4` exactly. -/
def age_0 (a : Args) : ℚ := ((a.net_worth_date - a.birthdate : ℤ) : ℚ) / (1461 / 4)

/-- Python's `int()` applied to a real (float/sympy Float) value:
truncation toward zero. -/
def pyInt (q : ℚ) : ℤ := if 0 ≤ q then ⌊q⌋ else ⌈q⌉

/-- Lines 53-54: `ageToDate(age) = birthdate + timedelta(days = int(age * 365.25))`. -/
def ageToDate (a : Args) (age : ℚ) : ℤ := a.birthdate + pyInt (age * (1461 / 4))

/-- The constant `(working_salary-working_spending)/working_inv_return`
appearing twice in line 61. -/
noncomputable def work_flow_over_rate (a : Args) : ℝ :=
  ((a.working_salary - a.working_spending : ℤ) : ℝ) /
    ((a.working_investment_return : ℚ) : ℝ)

/-- Line 61: the sympy expression `worth_work` as a function of `age`:
`(worth_0 + (working_salary-working_spending)/working_inv_return) *
exp(working_inv_return*(age-age_0)) - (working_salary-working_spending)/working_inv_return`. -/
noncomputable def worth_work (a : Args) (age : ℝ) : ℝ :=
  ((worth_0 a : ℤ) + work_flow_over_rate a) *
      Real.exp (((a.working_investment_return : ℚ) : ℝ) * (age - ((age_0 a : ℚ) : ℝ))) -
    work_flow_over_rate a

/-- The constant `(retired_salary-retired_spending)/retired_inv_return`
appearing twice in line 62 — built from the `retired_salary` binding of
line 47. -/
noncomputable def ret_flow_over_rate (a : Args) : ℝ :=
  (((retired_salary a) - a.retired_spending : ℤ) : ℝ) /
    ((a.retired_investment_return : ℚ) : ℝ)

/-- Line 62: the sympy expression `worth_ret` as a function of `age`:
`(worth_work.subs(age, retirement_age) + c_r) * exp(retired_inv_return*(age-retirement_age)) - c_r`. -/
noncomputable def worth_ret (a : Args) (age : ℝ) : ℝ :=
  (worth_work a ((a.retirement_age : ℤ) : ℝ) + ret_flow_over_rate a) *
      Real.exp (((a.retired_investment_return : ℚ) : ℝ) * (age - ((a.retirement_age : ℤ) : ℝ))) -
    ret_flow_over_rate a

/-- Line 64: `worth_by_age = Piecewise((worth_work, age <= retirement_age), (worth_ret, age > retirement_age))`. -/
noncomputable def worth_by_age (a : Args) (age : ℝ) : ℝ :=
  if age ≤ ((a.retirement_age : ℤ) : ℝ) then worth_work a age else worth_ret a age

/-- The argument of `ln` in line 75:
`(worth + c_w) / (worth_0 + c_w)` with `c_w = (working_salary-working_spending)/working_inv_return`. -/
noncomputable def logArg (a : Args) (worth : ℝ) : ℝ :=
  (worth + work_flow_over_rate a) / (((worth_0 a : ℤ) : ℝ) + work_flow_over_rate a)

/-- Line 75: the sympy expression `age_by_worth` as a function of `worth`:
`ln((worth + c_w)/(worth_0 + c_w)) / working_inv_return + age_0`.
sympy's `ln` of a negative real is the complex `log|x| + I*pi`, so the
value lives in `ℂ`. -/
noncomputable def age_by_worth (a : Args) (worth : ℝ) : ℂ :=
  Complex.log ((logArg a worth : ℝ) : ℂ) / (((a.working_investment_return : ℚ) : ℝ) : ℂ) +
    ((((age_0 a : ℚ) : ℝ)) : ℂ)

/-- Line 78: `break_even_worth = -1*(retired_salary-retired_spending)/retired_inv_return`,
with `retired_salary` the binding of line 47. -/
def break_even_worth (a : Args) : ℚ :=
  -1 * (((retired_salary a) - a.retired_spending : ℤ) : ℚ) / a.retired_investment_return

/-- Line 80: `break_even_age = age_by_worth.subs(worth, break_even_worth)`. -/
noncomputable def break_even_age (a : Args) : ℂ :=
  age_by_worth a ((break_even_worth a : ℚ) : ℝ)

/-- The error kinds named by the specification.  `zeroDivisionError` is
Python's `ZeroDivisionError`; `inputError` stands for the spec's
`InputError` (argparse-level rejection). -/
inductive PyError where
  | zeroDivisionError
  | inputError
deriving DecidableEq

/-- Python division of exact numbers: raises `ZeroDivisionError` on a zero
denominator, otherwise returns the quotient. -/
def pyDiv (x y : ℚ) : Except PyError ℚ :=
  if y = 0 then Except.error PyError.zeroDivisionError else Except.ok (x / y)

/-- The divisions performed while the formulas of lines 61-62 are built,
in program order: first `(working_salary-working_spending)/working_inv_return`
(line 61), then `(retired_salary-retired_spending)/retired_inv_return`
(line 62).  No validation of the rates happens anywhere before this point:
argparse (lines 26-38) only checks types and presence. -/
def runSetup (a : Args) : Except PyError (ℚ × ℚ) := do
  let cw ← pyDiv ((a.working_salary - a.working_spending : ℤ) : ℚ) a.working_investment_return
  let cr ← pyDiv (((retired_salary a) - a.retired_spending : ℤ) : ℚ) a.retired_investment_return
  pure (cw, cr)

/-- Python truthiness of `args.target_worth` (an `Option` of an int):
`None` and `0` are falsy, anything else truthy — the test of line 82. -/
def pyTruthy (o : Option ℤ) : Bool :=
  match o with
  | none => false
  | some v => v != 0

/-- One printed line of the program, carrying the values computed for it
(formatting is out of scope). -/
inductive Line where
  | estWorthAtRetirement (w : ℝ)
  | estWorthOnDate (d : ℤ) (w : ℝ)
  | blank
  | breakEvenAmount (w : ℚ)
  | breakEvenAge (a : ℂ)
  | targetWorthAge (w : ℤ) (a : ℂ)

/-- Lines 82-85: the target-worth section of the output.  The guard is
`if args.target_worth:` — Python truthiness of the optional value. -/
noncomputable def targetWorthOutput (a : Args) : List Line :=
  if pyTruthy a.target_worth then
    [Line.targetWorthAge (a.target_worth.getD 0)
      (age_by_worth a ((a.target_worth.getD 0 : ℤ) : ℝ))]
  else []

/-- Lines 66-85: the sequence of printed lines, in program order, with the
values each line carries. -/
noncomputable def programOutput (a : Args) : List Line :=
  [Line.estWorthAtRetirement (worth_ret a ((a.retirement_age : ℤ) : ℝ))] ++
    (match a.target_date with
      | some td =>
          [Line.estWorthOnDate td
            (worth_by_age a ((((td - a.birthdate : ℤ) : ℚ) / (1461 / 4) : ℚ) : ℝ))]
      | none => []) ++
    [Line.blank, Line.breakEvenAmount (break_even_worth a),
      Line.breakEvenAge (break_even_age a)] ++
    targetWorthOutput a

/-- The concrete scenario of spec section 8 item 6: birth `1990-01-01`
(ordinal 726468), reference date `2024-01-01` (ordinal 738886), net worth
100000, working salary 120000, spending 80000, working return 0.06,
retirement age 65, retired salary 0, retired spending 60000, retired
return 0.04. -/
def scenarioArgs : Args :=
  { birthdate := 726468
    net_worth := 100000
    net_worth_date := 738886
    working_salary := 120000
    working_investment_return := 6 / 100
    working_spending := 80000
    retirement_age := 65
    retired_salary := 0
    retired_investment_return := 4 / 100
    retired_spending := 60000
    target_date := none
    target_worth := none }

/-- The scenario with the working return rate set to `0.0` (argparse
accepts it: the option has `type=float` and no further checks). -/
def zeroRateArgs : Args :=
  { scenarioArgs with working_investment_return := 0 }

/-- A profile with equal working salary and spending (zero net flow) and
reference date equal to the birth date (so `age_0 = 0`). -/
def zeroFlowArgs : Args :=
  { birthdate := 0
    net_worth := 100000
    net_worth_date := 0
    working_salary := 50000
    working_investment_return := 6 / 100
    working_spending := 50000
    retirement_age := 65
    retired_salary := 0
    retired_investment_return := 4 / 100
    retired_spending := 60000
    target_date := none
    target_worth := none }

/-- A profile with negative current net worth and zero net flow, used to
exhibit a negative value of `worth_by_age`. -/
def negWorthArgs : Args :=
  { zeroFlowArgs with net_worth := -100000 }

/-- Modelled from the spec's words (for comparison with `ageToDate`):
"`birth_date + round(age * 365.25)` days", with rounding to the nearest
integer. -/
def ageToDateRounded (a : Args) (age : ℚ) : ℤ := a.birthdate + round (age * (1461 / 4))

end RetirementEstimator

namespace RetirementEstimator

/-! ## Helper lemmas -/

lemma pyInt_of_nonneg {q : ℚ} (h : 0 ≤ q) : pyInt q = ⌊q⌋ := if_pos h

lemma pyInt_nonpos {q : ℚ} (h : q ≤ 0) : pyInt q ≤ 0 := by
  unfold pyInt
  split_ifs with h0
  · have hq : q = 0 := le_antisymm h h0
    simp [hq]
  · exact Int.ceil_le.mpr (by exact_mod_cast h)

lemma pyInt_mono {x y : ℚ} (h : x ≤ y) : pyInt x ≤ pyInt y := by
  unfold pyInt
  split_ifs with hx hy hy
  · exact Int.floor_mono h
  · exact absurd (hx.trans h) hy
  · exact le_trans (Int.ceil_le.mpr (by exact_mod_cast (le_of_not_le hx)))
      (Int.floor_nonneg.mpr hy)
  · exact Int.ceil_mono h

lemma round_eq_floor_of_fract_lt_half {q : ℚ} (h : Int.fract q < 1 / 2) :
    round q = ⌊q⌋ := by
  rw [round_eq, Int.floor_eq_iff]
  constructor
  · have := Int.floor_le q
    linarith
  · have : q - (⌊q⌋ : ℚ) < 1 / 2 := by
      have hf := Int.self_sub_floor q
      rw [hf]; exact h
    linarith

/-! ## Claim theorems -/

/-- C1: in the source, line 47 binds `retired_salary = args.retirement_age`,
so `break_even_worth` does not depend on the retired-salary input
parameter; at the concrete profile (retirement age 65, retired-salary
argument 0, retired spending 60000, retired return 0.04) it evaluates to
`-(65 - 60000)/0.04 = 1498375`, not the claimed `1500000`. -/
theorem break_even_worth_ignores_retired_salary_arg :
    break_even_worth scenarioArgs = 1498375 ∧
    break_even_worth scenarioArgs ≠ 1500000 ∧
    retired_salary scenarioArgs = scenarioArgs.retirement_age ∧
    scenarioArgs.retired_salary = 0 := by
  refine ⟨?_, ?_, rfl, rfl⟩ <;>
    norm_num [break_even_worth, retired_salary, scenarioArgs]

/-- C3 (counterexample): with the working return rate set to `0.0`,
argument parsing accepts the input and the program fails with a
`ZeroDivisionError` while the formula of line 61 is built; no `InputError`
is reported. -/
theorem runSetup_zero_rate_cex :
    runSetup zeroRateArgs = Except.error PyError.zeroDivisionError ∧
    PyError.zeroDivisionError ≠ PyError.inputError := by
  exact ⟨rfl, by decide⟩

/-- C3 (amended): if either return rate is zero, the program raises
`ZeroDivisionError` during formula construction (lines 61-62); no
validation of the rates happens earlier, and no `InputError` is
produced. -/
theorem runSetup_zero_rate_zeroDivision (a : Args)
    (h : a.working_investment_return = 0 ∨ a.retired_investment_return = 0) :
    runSetup a = Except.error PyError.zeroDivisionError := by
  rcases h with h | h
  · simp only [runSetup]
    rw [h]
    rfl
  · by_cases hw : a.working_investment_return = 0
    · simp only [runSetup]
      rw [hw]
      rfl
    · simp only [runSetup, pyDiv]
      rw [h, if_neg hw]
      rfl

/-- Witness for C3's amended theorem at the concrete zero-rate input. -/
theorem runSetup_zero_rate_zeroDivision_witness :
    runSetup zeroRateArgs = Except.error PyError.zeroDivisionError :=
  runSetup_zero_rate_zeroDivision zeroRateArgs (Or.inl rfl)

/-- C7 (counterexample): at age `0.9`, `age * 365.25 = 328.725`; the code's
`int()` truncation gives 328 days while the claimed `round` gives 329, so
`ageToDate` differs from the rounded version. -/
theorem ageToDate_round_cex :
    ageToDate scenarioArgs (9 / 10) ≠ ageToDateRounded scenarioArgs (9 / 10) := by
  norm_num [ageToDate, ageToDateRounded, pyInt, round_eq, scenarioArgs]

/-- C7 (amended): `ageToDate(age)` equals `birth_date` plus
`int(age * 365.25)` days where `int` truncates toward zero; nonpositive
ages produce a date on or before birth without error, and the result
agrees with the rounded version whenever the fractional part of
`age * 365.25` is below one half. -/
theorem ageToDate_truncates (a : Args) (age : ℚ) :
    ageToDate a age = a.birthdate + pyInt (age * (1461 / 4)) ∧
    (age ≤ 0 → ageToDate a age ≤ a.birthdate) ∧
    (0 ≤ age → Int.fract (age * (1461 / 4)) < 1 / 2 →
      ageToDate a age = ageToDateRounded a age) := by
  refine ⟨rfl, ?_, ?_⟩
  · intro h
    have hq : age * (1461 / 4) ≤ 0 := by
      have := mul_le_mul_of_nonneg_right h (by norm_num : (0:ℚ) ≤ 1461 / 4)
      simpa using this
    have := pyInt_nonpos hq
    unfold ageToDate
    omega
  · intro h hf
    have hq : 0 ≤ age * (1461 / 4) := mul_nonneg h (by norm_num)
    unfold ageToDate ageToDateRounded
    rw [pyInt_of_nonneg hq, round_eq_floor_of_fract_lt_half hf]

/-- Witness for C7's amended theorem: a nonpositive age and an age whose
day count has fractional part below one half. -/
theorem ageToDate_truncates_witness :
    ageToDate scenarioArgs (-2) ≤ scenarioArgs.birthdate ∧
    ageToDate scenarioArgs 1 = ageToDateRounded scenarioArgs 1 :=
  ⟨(ageToDate_truncates scenarioArgs (-2)).2.1 (by norm_num),
   (ageToDate_truncates scenarioArgs 1).2.2 (by norm_num)
     (by norm_num [Int.fract])⟩

/-- C9: `ageToDate` is non-decreasing in age: truncation toward zero is
monotone and the day factor `365.25` is positive. -/
theorem ageToDate_mono (a : Args) (x y : ℚ) (h : x ≤ y) :
    ageToDate a x ≤ ageToDate a y := by
  have := pyInt_mono (mul_le_mul_of_nonneg_right h (by norm_num : (0:ℚ) ≤ 1461 / 4))
  unfold ageToDate
  omega

/-- Witness for C9 at two concrete ages. -/
theorem ageToDate_mono_witness :
    ageToDate scenarioArgs 1 ≤ ageToDate scenarioArgs 2 :=
  ageToDate_mono scenarioArgs 1 2 (by norm_num)

/-- C10: supplying `--target-worth 0` behaves exactly as omitting the
option: line 82 tests Python truthiness of the value, and both `None` and
`0` are falsy, so the target-age line is not computed or printed and the
rest of the output is unchanged. -/
theorem target_worth_zero_behaves_as_omitted (a : Args) :
    programOutput { a with target_worth := some 0 } =
      programOutput { a with target_worth := none } := rfl

end RetirementEstimator

namespace RetirementEstimator

/-- C5: continuity at the phase boundary — at `age = retirement_age` the
retired-phase expression restarts from `worth_work(retirement_age)` and
`exp(0) = 1`, so the two branches agree exactly. -/
theorem worth_continuous_at_retirement (a : Args)
    (hw : a.working_investment_return ≠ 0) (hr : a.retired_investment_return ≠ 0) :
    worth_work a ((a.retirement_age : ℤ) : ℝ) =
      worth_ret a ((a.retirement_age : ℤ) : ℝ) := by
  simp [worth_ret, sub_self, Real.exp_zero]

/-- Witness for C5 at the concrete scenario profile. -/
theorem worth_continuous_at_retirement_witness :
    worth_work scenarioArgs ((scenarioArgs.retirement_age : ℤ) : ℝ) =
      worth_ret scenarioArgs ((scenarioArgs.retirement_age : ℤ) : ℝ) :=
  worth_continuous_at_retirement scenarioArgs
    (by norm_num [scenarioArgs]) (by norm_num [scenarioArgs])

/-- C6: `worth_by_age` dispatches to the working-phase branch for
`age ≤ retirement_age` and to the retired-phase branch otherwise, and no
floor at zero is applied: a profile with negative net worth yields a
negative value. -/
theorem worth_by_age_dispatch :
    (∀ (a : Args) (x : ℝ),
        (x ≤ ((a.retirement_age : ℤ) : ℝ) → worth_by_age a x = worth_work a x) ∧
        (((a.retirement_age : ℤ) : ℝ) < x → worth_by_age a x = worth_ret a x)) ∧
    (∃ (a : Args) (x : ℝ),
        x ≤ ((a.retirement_age : ℤ) : ℝ) ∧ worth_by_age a x < 0) := by
  constructor
  · intro a x
    constructor
    · intro h
      simp [worth_by_age, h]
    · intro h
      simp [worth_by_age, not_le.mpr h]
  · refine ⟨negWorthArgs, 0, by norm_num [negWorthArgs, zeroFlowArgs], ?_⟩
    have h0 : (0 : ℝ) ≤ ((negWorthArgs.retirement_age : ℤ) : ℝ) := by
      norm_num [negWorthArgs, zeroFlowArgs]
    rw [worth_by_age, if_pos h0]
    have hval : worth_work negWorthArgs 0 = -100000 := by
      simp [worth_work, worth_0, work_flow_over_rate, age_0, negWorthArgs, zeroFlowArgs,
        Real.exp_zero]
    rw [hval]
    norm_num

/-- Witness for C6: both branches of the dispatch at concrete inputs. -/
theorem worth_by_age_dispatch_witness :
    worth_by_age negWorthArgs 0 = worth_work negWorthArgs 0 ∧
    worth_by_age negWorthArgs 100 = worth_ret negWorthArgs 100 :=
  ⟨(worth_by_age_dispatch.1 negWorthArgs 0).1 (by norm_num [negWorthArgs, zeroFlowArgs]),
   (worth_by_age_dispatch.1 negWorthArgs 100).2 (by norm_num [negWorthArgs, zeroFlowArgs])⟩

/-- C8 (counterexample): with equal working salary and spending the
working-phase worth still compounds: at the zero-flow profile (net worth
100000, rate 0.06, `age_0 = 0`) the worth one year in is
`100000 * exp(0.06) ≠ 100000`, so it does not stay at
`reference_net_worth`. -/
theorem worth_work_zero_flow_cex :
    zeroFlowArgs.working_salary = zeroFlowArgs.working_spending ∧
    worth_work zeroFlowArgs 1 ≠ (zeroFlowArgs.net_worth : ℝ) := by
  refine ⟨rfl, ?_⟩
  have hw : worth_work zeroFlowArgs 1 = 100000 * Real.exp ((6 / 100 : ℝ)) := by
    simp [worth_work, worth_0, work_flow_over_rate, age_0, zeroFlowArgs]
  rw [hw]
  intro hcontra
  have hn : (zeroFlowArgs.net_worth : ℝ) = 100000 * 1 := by
    norm_num [zeroFlowArgs]
  have h1 : Real.exp ((6 / 100 : ℝ)) = 1 :=
    mul_left_cancel₀ (by norm_num : (100000 : ℝ) ≠ 0) (hcontra.trans hn)
  rw [Real.exp_eq_one_iff] at h1
  norm_num at h1

/-- C8 (amended): with equal working salary and spending the net flow is
zero, so `worth_work` reduces to pure compounding of the reference net
worth — it equals `reference_net_worth * exp(r_w*(age - age_0))`, equals
the reference net worth exactly at `age_0`, and the division
`(working_salary-working_spending)/working_inv_return` is `0/r_w = 0`
with no `ZeroDivisionError` for a nonzero rate. -/
theorem worth_work_zero_flow (a : Args)
    (h : a.working_salary = a.working_spending) :
    (∀ x : ℝ, worth_work a x =
        (a.net_worth : ℝ) *
          Real.exp (((a.working_investment_return : ℚ) : ℝ) * (x - ((age_0 a : ℚ) : ℝ)))) ∧
    worth_work a ((age_0 a : ℚ) : ℝ) = (a.net_worth : ℝ) ∧
    (a.working_investment_return ≠ 0 →
      pyDiv ((a.working_salary - a.working_spending : ℤ) : ℚ) a.working_investment_return =
        Except.ok 0) := by
  have hc : work_flow_over_rate a = 0 := by
    simp [work_flow_over_rate, h]
  refine ⟨?_, ?_, ?_⟩
  · intro x
    simp [worth_work, worth_0, hc]
  · simp [worth_work, worth_0, hc, Real.exp_zero]
  · intro hr
    simp [pyDiv, hr, h]

/-- Witness for C8's amended theorem at the zero-flow profile. -/
theorem worth_work_zero_flow_witness :
    worth_work zeroFlowArgs ((age_0 zeroFlowArgs : ℚ) : ℝ) = (zeroFlowArgs.net_worth : ℝ) ∧
    pyDiv ((zeroFlowArgs.working_salary - zeroFlowArgs.working_spending : ℤ) : ℚ)
        zeroFlowArgs.working_investment_return = Except.ok 0 :=
  ⟨(worth_work_zero_flow zeroFlowArgs rfl).2.1,
   (worth_work_zero_flow zeroFlowArgs rfl).2.2 (by norm_num [zeroFlowArgs])⟩

end RetirementEstimator

namespace RetirementEstimator

/-- Imaginary part of sympy's `ln(x)/r + c` for a negative real `x`:
`log` of a negative real has imaginary part `pi`, dividing by the real `r`
and adding the real `c` gives `pi / r`. -/
lemma im_log_div_real_add {x r c : ℝ} (hx : x < 0) :
    (Complex.log ((x : ℝ) : ℂ) / ((r : ℝ) : ℂ) + ((c : ℝ) : ℂ)).im = Real.pi / r := by
  rw [Complex.add_im, Complex.ofReal_im, add_zero, Complex.div_ofReal_im,
    Complex.log_im, Complex.arg_ofReal_of_neg hx]

/-- C2 (counterexample): at the concrete scenario profile, the target
worth `-700000` lies below `-a_w/r_w ≈ -666667`; the argument of `ln` is
negative, and `age_by_worth` silently evaluates to a complex number with
nonzero imaginary part — no `DomainError` (or any exception) occurs. -/
theorem age_by_worth_neg_arg_cex :
    logArg scenarioArgs (-700000) < 0 ∧
    (age_by_worth scenarioArgs (-700000)).im ≠ 0 := by
  have harg : logArg scenarioArgs (-700000) < 0 := by
    norm_num [logArg, work_flow_over_rate, worth_0, scenarioArgs]
  refine ⟨harg, ?_⟩
  have him : (age_by_worth scenarioArgs (-700000)).im =
      Real.pi / ((scenarioArgs.working_investment_return : ℚ) : ℝ) := by
    unfold age_by_worth
    exact im_log_div_real_add harg
  rw [him]
  refine div_ne_zero Real.pi_ne_zero ?_
  norm_num [scenarioArgs]

/-- C2 (amended): when the argument of `ln` is negative, `age_by_worth`
does not raise anything: sympy's `ln` yields the complex value
`log|x| + I*pi`, so the result has imaginary part `pi / r_w`, which is
nonzero for a nonzero working return rate — a silent complex result
rather than a `DomainError`. -/
theorem age_by_worth_complex_on_neg_arg (a : Args) (w : ℝ)
    (h : logArg a w < 0) :
    (age_by_worth a w).im = Real.pi / ((a.working_investment_return : ℚ) : ℝ) ∧
    (((a.working_investment_return : ℚ) : ℝ) ≠ 0 → (age_by_worth a w).im ≠ 0) := by
  have him : (age_by_worth a w).im =
      Real.pi / ((a.working_investment_return : ℚ) : ℝ) := by
    unfold age_by_worth
    exact im_log_div_real_add h
  refine ⟨him, fun hr => ?_⟩
  rw [him]
  exact div_ne_zero Real.pi_ne_zero hr

/-- Witness for C2's amended theorem at a second unreachable target. -/
theorem age_by_worth_complex_on_neg_arg_witness :
    (age_by_worth scenarioArgs (-800000)).im ≠ 0 :=
  (age_by_worth_complex_on_neg_arg scenarioArgs (-800000)
      (by norm_num [logArg, work_flow_over_rate, worth_0, scenarioArgs])).2
    (by norm_num [scenarioArgs])

/-- C4: round-trip inverse — for a nonzero working rate, an age at or
below retirement age, and a positive `ln` argument,
`age_by_worth (worth_work age) = age` exactly. -/
theorem age_by_worth_roundtrip (a : Args) (x : ℝ)
    (hr : ((a.working_investment_return : ℚ) : ℝ) ≠ 0)
    (hx : x ≤ ((a.retirement_age : ℤ) : ℝ))
    (hdom : 0 < logArg a (worth_work a x)) :
    age_by_worth a (worth_work a x) = (x : ℂ) := by
  have hveq : worth_work a x + work_flow_over_rate a =
      (((worth_0 a : ℤ) : ℝ) + work_flow_over_rate a) *
        Real.exp (((a.working_investment_return : ℚ) : ℝ) * (x - ((age_0 a : ℚ) : ℝ))) := by
    unfold worth_work
    ring
  have hWc : ((worth_0 a : ℤ) : ℝ) + work_flow_over_rate a ≠ 0 := by
    intro h0
    have hz : logArg a (worth_work a x) = 0 := by
      unfold logArg
      rw [h0, div_zero]
    rw [hz] at hdom
    exact lt_irrefl 0 hdom
  have harg : logArg a (worth_work a x) =
      Real.exp (((a.working_investment_return : ℚ) : ℝ) * (x - ((age_0 a : ℚ) : ℝ))) := by
    unfold logArg
    rw [hveq, mul_div_cancel_left₀ _ hWc]
  have hexp : Complex.log
      (Complex.exp ((((a.working_investment_return : ℚ) : ℝ) * (x - ((age_0 a : ℚ) : ℝ)) : ℝ) : ℂ)) =
      ((((a.working_investment_return : ℚ) : ℝ) * (x - ((age_0 a : ℚ) : ℝ)) : ℝ) : ℂ) :=
    Complex.log_exp
      (by rw [Complex.ofReal_im]; exact neg_lt_zero.mpr Real.pi_pos)
      (by rw [Complex.ofReal_im]; exact Real.pi_pos.le)
  unfold age_by_worth
  rw [harg, Complex.ofReal_exp, hexp]
  norm_cast
  rw [mul_div_cancel_left₀ _ hr]
  ring

/-- Witness for C4 at the scenario profile with age equal to the
reference age (where `worth_work` returns the reference net worth and the
`ln` argument is `1`). -/
theorem age_by_worth_roundtrip_witness :
    age_by_worth scenarioArgs (worth_work scenarioArgs ((age_0 scenarioArgs : ℚ) : ℝ)) =
      (((age_0 scenarioArgs : ℚ) : ℝ) : ℂ) :=
  age_by_worth_roundtrip scenarioArgs ((age_0 scenarioArgs : ℚ) : ℝ)
    (by norm_num [scenarioArgs])
    (by norm_num [age_0, scenarioArgs])
    (by
      have h1 : worth_work scenarioArgs ((age_0 scenarioArgs : ℚ) : ℝ) =
          ((worth_0 scenarioArgs : ℤ) : ℝ) := by
        simp [worth_work, Real.exp_zero]
      rw [h1]
      norm_num [logArg, work_flow_over_rate, worth_0, scenarioArgs])

end RetirementEstimator
